import Mathlib

/-!
Verification of the Gapminder dashboard application (src/dashboard_app2.py).

The Python module is embedded shallowly:

* a dataframe cell is a `Value` (string, integer, float modelled as a rational
  number, or a missing value None/NaN);
* a pandas dataframe is a `DataFrame`: a list of column labels together with a
  list of rows, each row a list of cells aligned with the labels;
* fallible pandas and plotly operations (column access on a missing label
  raises KeyError, `astype(int)` on a NaN raises, plotly raises on a missing
  referenced column) return `Except String`, and exception propagation is the
  usual `Except` propagation written out as explicit matches;
* figure objects keep exactly their underlying data and the data-relevant
  keyword arguments; presentation-only arguments (titles, colors, templates,
  margins, heights) carry no data and are omitted from the artifacts.

`sort_values(by=c, ascending=False)` is modelled as: split off the rows whose
key cell is missing (pandas `na_position=last` keeps them at the end, in
original order), sort the remaining rows descending by the key with a stable
sort, append invalid rows.  Note on ties: pandas uses `kind=quicksort` (numpy
introsort) by default, whose tie order is implementation defined; the embedding
fixes the stable tie order (original order).  No claim settled as confirmed
below depends on the order of tied rows.
-/

namespace Gapminder

/-- Value is a single dataframe cell: a string, an integer, a float (modelled
as a rational number, faithful for every comparison and equality the app
performs), or a missing value (None/NaN). -/
inductive Value where
  | str (s : String)
  | int (n : Int)
  | rat (q : Rat)
  | null
deriving DecidableEq

/-- Numeric reading of a cell, when it has one.  pandas compares int64 and
float64 columns numerically. -/
def Value.toRat? : Value → Option Rat
  | .int n => some (n : Rat)
  | .rat q => some q
  | _ => none

/-- pandasEq models the elementwise `==` comparison used in the boolean-mask
filters of the app: numbers compare numerically, strings compare by equality,
a missing value (NaN/None) compares unequal to everything, and cells of
different kinds compare unequal. -/
def pandasEq (a b : Value) : Bool :=
  match a.toRat?, b.toRat? with
  | some x, some y => decide (x = y)
  | _, _ =>
    match a, b with
    | .str s, .str t => decide (s = t)
    | _, _ => false

/-- strLeB is lexicographic comparison of strings by character code, the order
numpy uses when sorting string data (only the dropdown option list is sorted
over strings in this app). -/
def strLeB : List Char → List Char → Bool
  | [], _ => true
  | _ :: _, [] => false
  | c :: cs, d :: ds =>
    if c.toNat < d.toNat then true
    else if d.toNat < c.toNat then false
    else strLeB cs ds

/-- Kind of a cell, used to make the sort comparison total across kinds.
Real sort keys in the app are homogeneous (a single numeric column, or the
string column of dropdown options), so the cross-kind order never matters
there. -/
def Value.rank : Value → Nat
  | .null => 0
  | .int _ => 1
  | .rat _ => 1
  | .str _ => 2

/-- Numeric component of the sort key (0 for non-numeric cells). -/
def Value.ratVal : Value → Rat
  | .int n => (n : Rat)
  | .rat q => q
  | _ => 0

/-- String component of the sort key (empty for non-string cells). -/
def Value.strVal : Value → String
  | .str s => s
  | _ => ""

/-- Value.leB is the total comparison backing the embedded sorts: compare the
kind first, then numerically, then lexicographically.  On a homogeneous numeric
column it is exactly numeric order; on a homogeneous string column it is
exactly lexicographic order. -/
def Value.leB (a b : Value) : Bool :=
  decide (a.rank < b.rank) ||
    (decide (a.rank = b.rank) &&
      (decide (a.ratVal < b.ratVal) ||
        (decide (a.ratVal = b.ratVal) && strLeB a.strVal.data b.strVal.data)))

/-- DataFrame is a pandas dataframe: column labels plus rows of cells, each row
aligned with the labels. -/
structure DataFrame where
  cols : List String
  rows : List (List Value)
deriving DecidableEq

/-- rowCell r i reads the cell of row r at column position i (missing when out
of range, which never happens on aligned frames). -/
def rowCell (r : List Value) (i : Nat) : Value := r.getD i Value.null

/-- colIdx models column lookup: the position of a label among the columns; a
missing label raises KeyError. -/
def DataFrame.colIdx (df : DataFrame) (name : String) : Except String Nat :=
  match df.cols.findIdx? (fun c => decide (c = name)) with
  | some i => Except.ok i
  | none => Except.error ("KeyError: " ++ name)

/-- filterEq models the boolean-mask filter `df[df[col] == v]`: keep the rows
whose cell in column col compares equal to v. -/
def DataFrame.filterEq (df : DataFrame) (col : String) (v : Value) :
    Except String DataFrame :=
  match df.colIdx col with
  | .error e => .error e
  | .ok i =>
    .ok { df with rows := df.rows.filter (fun r => pandasEq (rowCell r i) v) }

/-- rowDescRel key is the row comparison handed to the stable sort embedding
`sort_values(by, ascending=False)`: row a may precede row b when the key of b
is at most the key of a. -/
def rowDescRel (key : List Value → Value) (a b : List Value) : Prop :=
  Value.leB (key b) (key a) = true

instance (key : List Value → Value) : DecidableRel (rowDescRel key) := fun a b =>
  inferInstanceAs (Decidable (Value.leB (key b) (key a) = true))

/-- valueLe is ascending comparison of cells as a relation, used for the sorted
dropdown option lists. -/
def valueLe (a b : Value) : Prop := Value.leB a b = true

instance : DecidableRel valueLe := fun a b =>
  inferInstanceAs (Decidable (Value.leB a b = true))

/-- sortRowsDesc is the row permutation `sort_values(by, ascending=False)`
produces, with the key at column position i: rows with a missing key go last
in original order (na_position=last), the remaining rows are sorted descending
by the key with a stable sort.  See the file header for the note on the order
of tied rows. -/
def sortRowsDesc (rows : List (List Value)) (i : Nat) : List (List Value) :=
  ((rows.filter (fun r => !(decide (rowCell r i = Value.null)))).insertionSort
      (rowDescRel (fun r => rowCell r i))) ++
    rows.filter (fun r => decide (rowCell r i = Value.null))

/-- sortValuesDesc models `df.sort_values(by=col, ascending=False)`. -/
def DataFrame.sortValuesDesc (df : DataFrame) (col : String) :
    Except String DataFrame :=
  match df.colIdx col with
  | .error e => .error e
  | .ok i => .ok { df with rows := sortRowsDesc df.rows i }

/-- headRows models `df.head(n)`. -/
def DataFrame.headRows (df : DataFrame) (n : Nat) : DataFrame :=
  { df with rows := df.rows.take n }

/-- mapExcept runs a fallible operation over a list, raising the first failure,
exactly like a Python loop over the list. -/
def mapExcept (f : α → Except String β) : List α → Except String (List β)
  | [] => .ok []
  | a :: as =>
    match f a with
    | .error e => .error e
    | .ok b =>
      match mapExcept f as with
      | .error e => .error e
      | .ok bs => .ok (b :: bs)

/-- project models the column projection `df[[n1, ..., nk]]`: a frame with
exactly the named columns in the given order; a missing label raises
KeyError. -/
def DataFrame.project (df : DataFrame) (names : List String) :
    Except String DataFrame :=
  match mapExcept df.colIdx names with
  | .error e => .error e
  | .ok idxs =>
    .ok { cols := names, rows := df.rows.map (fun r => idxs.map (fun i => rowCell r i)) }

/-- colValues reads one column of the frame as a list of cells. -/
def DataFrame.colValues (df : DataFrame) (name : String) :
    Except String (List Value) :=
  match df.colIdx name with
  | .error e => .error e
  | .ok i => .ok (df.rows.map (fun r => rowCell r i))

/-- renameMap is the column renaming passed to `gapminder_df.rename` in the
dataset-preparation block (lines 17-25 of dashboard_app2.py). -/
def renameMap : List (String × String) :=
  [("gdpPercap", "GDP per Capita"),
   ("lifeExp", "Life Expectancy"),
   ("pop", "Population"),
   ("continent", "Continent"),
   ("country", "Country"),
   ("year", "Year"),
   ("iso_alpha", "ISO Alpha Country Code")]

/-- renameCols models `df.rename(columns=renameMap, errors="ignore")`: every
column label that is a key of the mapping is replaced by its image, all other
labels stay; mapping keys that are not column labels are silently ignored
(that is what errors="ignore" means — no column is added, none removed). -/
def renameCols (df : DataFrame) : DataFrame :=
  { df with cols := df.cols.map (fun c => ((renameMap.lookup c).getD c)) }

/-- astypeInt models `astype(int)` on one cell: integers stay, floats truncate
toward zero, numeric strings parse, and a missing value raises (pandas cannot
convert NA to integer). -/
def Value.astypeInt : Value → Except String Value
  | .int n => .ok (.int n)
  | .rat q => .ok (.int (q.num / (q.den : Int)))
  | .str s =>
    match s.toInt? with
    | some n => .ok (.int n)
    | none => .error "ValueError: invalid literal for int"
  | .null => .error "IntCastingNaNError: cannot convert NA to integer"

/-- loadDataset is the dataset-preparation block (lines 14-30): rename the
source columns with errors="ignore", then force the Year column to integer
with `gapminder_df["Year"] = gapminder_df["Year"].astype(int)` — an access
that raises KeyError when no Year column exists.  The datetime branch of line
28 is a no-op here: `plotly.data.gapminder()` yields integer years, and
`is_datetime64_any_dtype` is False on a non-datetime (or absent) column, so
the branch never runs on any input this model can represent. -/
def loadDataset (raw : DataFrame) : Except String DataFrame :=
  let df := renameCols raw
  match df.colIdx "Year" with
  | .error e => .error e
  | .ok i =>
    match mapExcept (fun r =>
        match (rowCell r i).astypeInt with
        | .error e => .error e
        | .ok v => .ok (r.set i v)) df.rows with
    | .error e => .error e
    | .ok rows2 => .ok { df with rows := rows2 }

/-- BarChart is the data content of the `px.bar` figure built by the three
chart functions: the plotted frame plus the x and y column references.
Presentation-only keyword arguments (title, text_auto, color sequence,
template, layout, marker width) are omitted. -/
structure BarChart where
  data : DataFrame
  x : String
  y : String
deriving DecidableEq

/-- barChartFor is the shared body of create_population_chart (lines 64-78),
create_gdp_chart (lines 81-95) and create_life_exp_chart (lines 98-112), which
are copy-and-paste identical up to the ranking column ycol: filter the rows to
the selected continent and year, sort them descending by ycol, keep the first
15, and hand the frame to `px.bar` with x=Country, y=ycol, color=Country —
which raises when a referenced column is missing from the frame. -/
def barChartFor (ycol : String) (df : DataFrame) (continent year : Value) :
    Except String BarChart :=
  match df.filterEq "Continent" continent with
  | .error e => .error e
  | .ok f1 =>
    match f1.filterEq "Year" year with
    | .error e => .error e
    | .ok f2 =>
      match f2.sortValuesDesc ycol with
      | .error e => .error e
      | .ok s =>
        match (s.headRows 15).colIdx "Country" with
        | .error e => .error e
        | .ok _ => .ok { data := s.headRows 15, x := "Country", y := ycol }

/-- create_population_chart (lines 64-78); the Python defaults are
continent="Asia", year=1952. -/
def create_population_chart (df : DataFrame) (continent year : Value) :
    Except String BarChart :=
  barChartFor "Population" df continent year

/-- create_gdp_chart (lines 81-95). -/
def create_gdp_chart (df : DataFrame) (continent year : Value) :
    Except String BarChart :=
  barChartFor "GDP per Capita" df continent year

/-- create_life_exp_chart (lines 98-112). -/
def create_life_exp_chart (df : DataFrame) (continent year : Value) :
    Except String BarChart :=
  barChartFor "Life Expectancy" df continent year

/-- Choropleth is the data content of the `px.choropleth` figure: the plotted
frame, the color column, the locations column reference and the location mode,
plus the hover columns.  Presentation-only arguments are omitted. -/
structure Choropleth where
  data : DataFrame
  color : String
  locations : String
  locationmode : String
  hover : List String
deriving DecidableEq

/-- create_choropleth_map (lines 115-130): filter the rows to the selected
year and build a choropleth colored by the selected variable, with
locations="ISO Alpha Country Code" and locationmode="ISO-3" passed as fixed
literals.  `px.choropleth` raises when a referenced column (the variable, the
locations column, or the hover column Country) is missing. -/
def create_choropleth_map (df : DataFrame) (varName : String) (year : Value) :
    Except String Choropleth :=
  match df.filterEq "Year" year with
  | .error e => .error e
  | .ok f =>
    match f.colIdx varName with
    | .error e => .error e
    | .ok _ =>
      match f.colIdx "ISO Alpha Country Code" with
      | .error e => .error e
      | .ok _ =>
        match f.colIdx "Country" with
        | .error e => .error e
        | .ok _ =>
          .ok { data := f, color := varName,
                locations := "ISO Alpha Country Code", locationmode := "ISO-3",
                hover := ["Country", varName] }

/-- TableFigure is the data content of the `go.Table` built by create_table:
the header is the column labels and the cells are the columns of the frame. -/
structure TableFigure where
  header : List String
  cells : List (List Value)
deriving DecidableEq

/-- create_table (lines 44-62): a table of the whole frame, column-major as
`go.Table` takes it. -/
def create_table (df : DataFrame) : TableFigure :=
  { header := df.cols,
    cells := (List.range df.cols.length).map (fun i => df.rows.map (fun r => rowCell r i)) }

/-- Dropdown is a `dcc.Dropdown` widget as mk_dropdown builds it. -/
structure Dropdown where
  elemId : String
  options : List Value
  value : Value
  clearable : Bool
deriving DecidableEq

/-- mk_dropdown (lines 136-137): options as given, initial value as given, and
clearable=False — the UI never hands the callbacks a cleared (null) value. -/
def mk_dropdown (elemId : String) (options : List Value) (value : Value) : Dropdown :=
  { elemId := elemId, options := options, value := value, clearable := false }

/-- sortedUniqueValues models `sorted(series.unique())`: the distinct values in
ascending order. -/
def sortedUniqueValues (vs : List Value) : List Value :=
  vs.dedup.insertionSort valueLe

/-- continentsOf models line 133: `continents = sorted(gapminder_df.Continent.unique())`. -/
def continentsOf (df : DataFrame) : Except String (List Value) :=
  match df.colValues "Continent" with
  | .error e => .error e
  | .ok vs => .ok (sortedUniqueValues vs)

/-- yearsOf models line 134: `years = sorted(gapminder_df.Year.unique())`. -/
def yearsOf (df : DataFrame) : Except String (List Value) :=
  match df.colValues "Year" with
  | .error e => .error e
  | .ok vs => .ok (sortedUniqueValues vs)

/-- update_population_chart (lines 215-217): the callback body is exactly
`return create_population_chart(continent, year)` — no guard, no default
substitution, no exception handler. -/
def update_population_chart (df : DataFrame) (continent year : Value) :
    Except String BarChart :=
  create_population_chart df continent year

/-- update_gdp_chart (lines 219-221). -/
def update_gdp_chart (df : DataFrame) (continent year : Value) :
    Except String BarChart :=
  create_gdp_chart df continent year

/-- update_life_exp_chart (lines 223-225). -/
def update_life_exp_chart (df : DataFrame) (continent year : Value) :
    Except String BarChart :=
  create_life_exp_chart df continent year

/-- update_map (lines 227-229). -/
def update_map (df : DataFrame) (varName : String) (year : Value) :
    Except String Choropleth :=
  create_choropleth_map df varName year

/-- DownloadPayload is the data handed to `dcc.send_data_frame(df.to_csv, ...,
index=False)`: the serialized frame (header row = column labels, one CSV data
row per frame row, no index column).  The file name, a presentation detail,
is omitted. -/
structure DownloadPayload where
  content : DataFrame
deriving DecidableEq

/-- download_full_dataset (lines 233-237).  Dash passes n_clicks=None before
the first click; `if not n_clicks: return None` treats both None and 0 as
not clicked. -/
def download_full_dataset (df : DataFrame) (n_clicks : Option Nat) :
    Option (Except String DownloadPayload) :=
  if n_clicks.getD 0 = 0 then none
  else some (.ok { content := df })

/-- downloadFilteredBy is the shared body of download_population (lines
240-246), download_gdp (lines 249-255) and download_life (lines 258-264),
identical up to the sort column ycol: when clicked, serialize the rows matching
the selected continent and year, sorted descending by ycol — with no head(15)
truncation. -/
def downloadFilteredBy (ycol : String) (df : DataFrame) (n_clicks : Option Nat)
    (continent year : Value) : Option (Except String DownloadPayload) :=
  if n_clicks.getD 0 = 0 then none
  else some (
    match df.filterEq "Continent" continent with
    | .error e => .error e
    | .ok f1 =>
      match f1.filterEq "Year" year with
      | .error e => .error e
      | .ok f2 =>
        match f2.sortValuesDesc ycol with
        | .error e => .error e
        | .ok s => .ok { content := s })

/-- download_population (lines 240-246). -/
def download_population (df : DataFrame) (n_clicks : Option Nat)
    (continent year : Value) : Option (Except String DownloadPayload) :=
  downloadFilteredBy "Population" df n_clicks continent year

/-- download_gdp (lines 249-255). -/
def download_gdp (df : DataFrame) (n_clicks : Option Nat)
    (continent year : Value) : Option (Except String DownloadPayload) :=
  downloadFilteredBy "GDP per Capita" df n_clicks continent year

/-- download_life (lines 258-264). -/
def download_life (df : DataFrame) (n_clicks : Option Nat)
    (continent year : Value) : Option (Except String DownloadPayload) :=
  downloadFilteredBy "Life Expectancy" df n_clicks continent year

/-- download_map (lines 267-273): when clicked, serialize all rows of the
selected year — no row limit, no ranking — projected to Country, Continent,
Year, the selected variable, ISO Alpha Country Code, in that order. -/
def download_map (df : DataFrame) (n_clicks : Option Nat) (varName : String)
    (year : Value) : Option (Except String DownloadPayload) :=
  if n_clicks.getD 0 = 0 then none
  else some (
    match df.filterEq "Year" year with
    | .error e => .error e
    | .ok f =>
      match f.project ["Country", "Continent", "Year", varName,
          "ISO Alpha Country Code"] with
      | .error e => .error e
      | .ok p => .ok { content := p })

/-- PopTabState is the state of the Population tab that reaches the
download-pop callback: the accumulated click count of the download button
(None before the first click) and the two dropdown values. -/
structure PopTabState where
  n_clicks : Option Nat
  continent : Value
  year : Value
deriving DecidableEq

/-- PopTabEvent is a user interaction on the Population tab that fires the
download-pop callback: the callback of lines 240-246 declares the button
n_clicks AND both dropdown values as Input, so the Dash framework fires it
after every one of these three events. -/
inductive PopTabEvent where
  | click
  | setContinent (v : Value)
  | setYear (v : Value)
deriving DecidableEq

/-- stepPop is the effect of one event on the Population-tab state. -/
def stepPop : PopTabState → PopTabEvent → PopTabState
  | s, .click => { s with n_clicks := some (s.n_clicks.getD 0 + 1) }
  | s, .setContinent v => { s with continent := v }
  | s, .setYear v => { s with year := v }

/-- popDownloadEmitted is what the download-pop callback returns when the
framework fires it on the current state; a some value is a download handed to
the browser. -/
def popDownloadEmitted (df : DataFrame) (s : PopTabState) :
    Option (Except String DownloadPayload) :=
  download_population df s.n_clicks s.continent s.year

/-- create_population_chart_global is create_population_chart together with
the module state it can see: the body reads the global gapminder_df, contains
no assignment to it, and every pandas operation it uses (boolean-mask filter,
sort_values with the default inplace=False, head) returns a new frame — so the
call returns the global unchanged. -/
def create_population_chart_global (g : DataFrame) (continent year : Value) :
    Except String BarChart × DataFrame :=
  (create_population_chart g continent year, g)

/-- create_gdp_chart_global: as create_population_chart_global. -/
def create_gdp_chart_global (g : DataFrame) (continent year : Value) :
    Except String BarChart × DataFrame :=
  (create_gdp_chart g continent year, g)

/-- create_life_exp_chart_global: as create_population_chart_global. -/
def create_life_exp_chart_global (g : DataFrame) (continent year : Value) :
    Except String BarChart × DataFrame :=
  (create_life_exp_chart g continent year, g)

/-- create_choropleth_map_global: as create_population_chart_global. -/
def create_choropleth_map_global (g : DataFrame) (varName : String) (year : Value) :
    Except String Choropleth × DataFrame :=
  (create_choropleth_map g varName year, g)

/-- create_table_global: as create_population_chart_global. -/
def create_table_global (g : DataFrame) : TableFigure × DataFrame :=
  (create_table g, g)

/-! Concrete frames used to evaluate the definitions in the witness and
counterexample theorems below.  sampleDF is a small excerpt of the shape of
the loaded gapminder frame. -/

/-- sampleDF is a well-formed frame with the canonical columns. -/
def sampleDF : DataFrame :=
  { cols := ["Country", "Continent", "Year", "Population", "GDP per Capita",
             "Life Expectancy", "ISO Alpha Country Code"],
    rows :=
      [[.str "China", .str "Asia", .int 1952, .int 556263527, .rat 400, .rat 44, .str "CHN"],
       [.str "India", .str "Asia", .int 1952, .int 372000000, .rat 546, .rat 37, .str "IND"],
       [.str "Egypt", .str "Africa", .int 1952, .int 22223309, .rat 1418, .rat 41, .str "EGY"],
       [.str "Japan", .str "Asia", .int 1957, .int 91563009, .rat 4317, .rat 65, .str "JPN"]] }

/-- noIsoDF is a well-formed frame in which no record carries an ISO-3 code. -/
def noIsoDF : DataFrame :=
  { cols := ["Country", "Continent", "Year", "Population", "GDP per Capita",
             "Life Expectancy", "ISO Alpha Country Code"],
    rows :=
      [[.str "Atlantis", .str "Oceania", .int 1952, .int 1000, .rat 5, .rat 50, .null]] }

/-- popFreeDF is a frame with Continent and Year columns but no Population
column, of the kind the loader itself produces from a source that lacks the
pop column. -/
def popFreeDF : DataFrame :=
  { cols := ["Country", "Continent", "Year"],
    rows := [[.str "China", .str "Asia", .int 1952]] }

/-- rawNoPop is a source frame missing the pop column (and some others). -/
def rawNoPop : DataFrame :=
  { cols := ["country", "continent", "year", "lifeExp"],
    rows := [[.str "China", .str "Asia", .int 1952, .rat 44]] }

/-- rawNoYear is a source frame missing the year column. -/
def rawNoYear : DataFrame :=
  { cols := ["country", "pop"],
    rows := [[.str "China", .int 5]] }

/-- canonicalColumns are the column labels of the loaded dataset. -/
def canonicalColumns : List String :=
  ["Country", "Continent", "Year", "Population", "GDP per Capita",
   "Life Expectancy", "ISO Alpha Country Code"]

/-! Decidability and small helper definitions for stating and evaluating the
results of fallible calls. -/

instance {ε α : Type} [DecidableEq ε] [DecidableEq α] : DecidableEq (Except ε α) := fun a b =>
  match a, b with
  | .ok x, .ok y => decidable_of_iff (x = y) (by simp)
  | .error e, .error f => decidable_of_iff (e = f) (by simp)
  | .ok _, .error _ => isFalse (fun h => Except.noConfusion h)
  | .error _, .ok _ => isFalse (fun h => Except.noConfusion h)

/-- isOkB decides whether a fallible call succeeded. -/
def isOkB : Except String α → Bool
  | .ok _ => true
  | .error _ => false

/-- dlIsOk decides whether a download callback produced a successful payload. -/
def dlIsOk : Option (Except String DownloadPayload) → Bool
  | some (.ok _) => true
  | _ => false

/-- chartRows reads the plotted rows out of a chart call, empty when the call
failed. -/
def chartRows (r : Except String BarChart) : List (List Value) :=
  match r with
  | .ok fig => fig.data.rows
  | .error _ => []

/-! Order lemmas for the comparison backing the embedded sorts. -/

theorem strLeB_total (a b : List Char) : strLeB a b = true ∨ strLeB b a = true := by
  induction a generalizing b with
  | nil => left; rfl
  | cons c cs ih =>
    cases b with
    | nil => right; rfl
    | cons d ds =>
      by_cases h1 : c.toNat < d.toNat
      · left; simp [strLeB, h1]
      · by_cases h2 : d.toNat < c.toNat
        · right; simp [strLeB, h2]
        · rcases ih ds with h | h
          · left; simp [strLeB, h1, h2, h]
          · right; simp [strLeB, h1, h2, h]

theorem strLeB_trans (a b c : List Char) (hab : strLeB a b = true)
    (hbc : strLeB b c = true) : strLeB a c = true := by
  induction a generalizing b c with
  | nil => rfl
  | cons x xs ih =>
    cases b with
    | nil => simp [strLeB] at hab
    | cons y ys =>
      cases c with
      | nil => simp [strLeB] at hbc
      | cons z zs =>
        by_cases h1 : x.toNat < y.toNat
        · by_cases h2 : y.toNat < z.toNat
          · have h3 : x.toNat < z.toNat := Nat.lt_trans h1 h2
            simp [strLeB, h3]
          · by_cases h3 : z.toNat < y.toNat
            · simp [strLeB, h2, h3] at hbc
            · have hyz : y.toNat = z.toNat :=
                Nat.le_antisymm (Nat.not_lt.mp h3) (Nat.not_lt.mp h2)
              have h4 : x.toNat < z.toNat := hyz ▸ h1
              simp [strLeB, h4]
        · by_cases h4 : y.toNat < x.toNat
          · simp [strLeB, h1, h4] at hab
          · have hxy : x.toNat = y.toNat :=
              Nat.le_antisymm (Nat.not_lt.mp h4) (Nat.not_lt.mp h1)
            have hab' : strLeB xs ys = true := by simpa [strLeB, h1, h4] using hab
            by_cases h2 : y.toNat < z.toNat
            · have h5 : x.toNat < z.toNat := hxy ▸ h2
              simp [strLeB, h5]
            · by_cases h3 : z.toNat < y.toNat
              · simp [strLeB, h2, h3] at hbc
              · have hyz : y.toNat = z.toNat :=
                  Nat.le_antisymm (Nat.not_lt.mp h3) (Nat.not_lt.mp h2)
                have hbc' : strLeB ys zs = true := by simpa [strLeB, h2, h3] using hbc
                have hxz : ¬ x.toNat < z.toNat := by omega
                have hzx : ¬ z.toNat < x.toNat := by omega
                simp [strLeB, hxz, hzx]
                exact ih ys zs hab' hbc'

theorem leB_total (a b : Value) : Value.leB a b = true ∨ Value.leB b a = true := by
  simp only [Value.leB, Bool.or_eq_true, Bool.and_eq_true, decide_eq_true_eq]
  rcases Nat.lt_trichotomy a.rank b.rank with h | h | h
  · exact Or.inl (Or.inl h)
  · rcases lt_trichotomy a.ratVal b.ratVal with hq | hq | hq
    · exact Or.inl (Or.inr ⟨h, Or.inl hq⟩)
    · rcases strLeB_total a.strVal.data b.strVal.data with hs | hs
      · exact Or.inl (Or.inr ⟨h, Or.inr ⟨hq, hs⟩⟩)
      · exact Or.inr (Or.inr ⟨h.symm, Or.inr ⟨hq.symm, hs⟩⟩)
    · exact Or.inr (Or.inr ⟨h.symm, Or.inl hq⟩)
  · exact Or.inr (Or.inl h)

theorem leB_trans (a b c : Value) (hab : Value.leB a b = true)
    (hbc : Value.leB b c = true) : Value.leB a c = true := by
  simp only [Value.leB, Bool.or_eq_true, Bool.and_eq_true, decide_eq_true_eq] at *
  rcases hab with h1 | ⟨h1, h1'⟩
  · rcases hbc with h2 | ⟨h2, h2'⟩
    · exact Or.inl (Nat.lt_trans h1 h2)
    · exact Or.inl (h2 ▸ h1)
  · rcases hbc with h2 | ⟨h2, h2'⟩
    · exact Or.inl (h1 ▸ h2)
    · refine Or.inr ⟨h1.trans h2, ?_⟩
      rcases h1' with hq1 | ⟨hq1, hs1⟩
      · rcases h2' with hq2 | ⟨hq2, hs2⟩
        · exact Or.inl (lt_trans hq1 hq2)
        · exact Or.inl (hq2 ▸ hq1)
      · rcases h2' with hq2 | ⟨hq2, hs2⟩
        · exact Or.inl (hq1 ▸ hq2)
        · exact Or.inr ⟨hq1.trans hq2, strLeB_trans _ _ _ hs1 hs2⟩

instance (key : List Value → Value) : IsTotal (List Value) (rowDescRel key) :=
  ⟨fun a b => (leB_total (key b) (key a)).imp id id⟩

instance (key : List Value → Value) : IsTrans (List Value) (rowDescRel key) :=
  ⟨fun a b c hab hbc => leB_trans (key c) (key b) (key a) hbc hab⟩

/-! Basic lemmas about the embedded frame operations. -/

theorem pandasEq_null_right (v : Value) : pandasEq v Value.null = false := by
  cases v <;> rfl

theorem length_filter_not_add (p : α → Bool) (l : List α) :
    (l.filter (fun a => !(p a))).length + (l.filter p).length = l.length := by
  induction l with
  | nil => rfl
  | cons a l ih =>
    cases h : p a <;> simp [List.filter_cons, h] <;> omega

theorem findIdx_of_colIdx {df : DataFrame} {n : String} {i : Nat}
    (h : df.colIdx n = Except.ok i) :
    df.cols.findIdx? (fun c => decide (c = n)) = some i := by
  unfold DataFrame.colIdx at h
  cases hf : df.cols.findIdx? (fun c => decide (c = n)) with
  | none => rw [hf] at h; cases h
  | some j => rw [hf] at h; injection h with h'; rw [h']

theorem colIdx_error_of_not_mem {df : DataFrame} {n : String} (h : n ∉ df.cols) :
    df.colIdx n = Except.error ("KeyError: " ++ n) := by
  unfold DataFrame.colIdx
  have hf : df.cols.findIdx? (fun c => decide (c = n)) = none := by
    rw [List.findIdx?_eq_none_iff]
    intro x hx
    simp only [decide_eq_false_iff_not]
    intro hxn
    exact h (hxn ▸ hx)
  rw [hf]

theorem filterEq_mk {cols : List String} {col : String} {i : Nat}
    (h : cols.findIdx? (fun c => decide (c = col)) = some i)
    (R : List (List Value)) (v : Value) :
    (DataFrame.mk cols R).filterEq col v =
      Except.ok (DataFrame.mk cols (R.filter (fun r => pandasEq (rowCell r i) v))) := by
  simp [DataFrame.filterEq, DataFrame.colIdx, h]

theorem sortValuesDesc_mk {cols : List String} {col : String} {i : Nat}
    (h : cols.findIdx? (fun c => decide (c = col)) = some i)
    (R : List (List Value)) :
    (DataFrame.mk cols R).sortValuesDesc col =
      Except.ok (DataFrame.mk cols (sortRowsDesc R i)) := by
  simp [DataFrame.sortValuesDesc, DataFrame.colIdx, h]

theorem sortRowsDesc_length (rows : List (List Value)) (i : Nat) :
    (sortRowsDesc rows i).length = rows.length := by
  unfold sortRowsDesc
  rw [List.length_append, List.length_insertionSort]
  exact length_filter_not_add _ rows

theorem sortRowsDesc_subset {rows : List (List Value)} {i : Nat} {r : List Value}
    (hr : r ∈ sortRowsDesc rows i) : r ∈ rows := by
  unfold sortRowsDesc at hr
  rcases List.mem_append.mp hr with h | h
  · exact List.mem_of_mem_filter ((List.mem_insertionSort _).mp h)
  · exact List.mem_of_mem_filter h

theorem sortRowsDesc_pairwise (rows : List (List Value)) (i : Nat) :
    (sortRowsDesc rows i).Pairwise
      (fun a b => rowCell b i = Value.null ∨ Value.leB (rowCell b i) (rowCell a i) = true) := by
  unfold sortRowsDesc
  refine List.pairwise_append.mpr ⟨?_, ?_, ?_⟩
  · have hs := List.sorted_insertionSort (r := rowDescRel (fun r => rowCell r i))
      (rows.filter (fun r => !(decide (rowCell r i = Value.null))))
    exact hs.imp (fun h => Or.inr h)
  · refine List.pairwise_of_forall_mem_list ?_
    intro a _ b hb
    exact Or.inl (of_decide_eq_true (List.mem_filter.mp hb).2)
  · intro a _ b hb
    exact Or.inl (of_decide_eq_true (List.mem_filter.mp hb).2)

/-- barChartFor_props: the shared top-15 query of the three chart functions
returns at most 15 rows, all matching the continent and year filter, in
descending order of the ranking column (rows with a missing ranking value
last). -/
theorem barChartFor_props (ycol : String) (df : DataFrame) (c y : Value)
    (ic iy ik : Nat)
    (hic : df.colIdx "Continent" = Except.ok ic)
    (hiy : df.colIdx "Year" = Except.ok iy)
    (hik : df.colIdx ycol = Except.ok ik) :
    (chartRows (barChartFor ycol df c y)).length ≤ 15 ∧
    (∀ r ∈ chartRows (barChartFor ycol df c y),
        pandasEq (rowCell r ic) c = true ∧ pandasEq (rowCell r iy) y = true) ∧
    (chartRows (barChartFor ycol df c y)).Pairwise
        (fun a b => rowCell b ik = Value.null ∨
          Value.leB (rowCell b ik) (rowCell a ik) = true) := by
  obtain ⟨cols, rows⟩ := df
  have hfC := findIdx_of_colIdx hic
  have hfY := findIdx_of_colIdx hiy
  have hfK := findIdx_of_colIdx hik
  simp only [barChartFor, filterEq_mk hfC, filterEq_mk hfY, sortValuesDesc_mk hfK,
    DataFrame.headRows]
  cases hC : cols.findIdx? (fun s => decide (s = "Country")) with
  | none =>
    simp only [DataFrame.colIdx, hC, chartRows]
    exact ⟨by simp, by simp, by simp⟩
  | some j =>
    simp only [DataFrame.colIdx, hC, chartRows]
    refine ⟨List.length_take_le _ _, ?_, ?_⟩
    · intro r hr
      have hr1 := List.take_subset _ _ hr
      have hr2 := sortRowsDesc_subset hr1
      have h2 := List.mem_filter.mp hr2
      have h1 := List.mem_filter.mp h2.1
      exact ⟨h1.2, h2.2⟩
    · exact (sortRowsDesc_pairwise _ _).sublist (List.take_sublist _ _)

/-- C1: for every (continent, year) pair present in the dataset, the
filter-and-rank query of create_population_chart, create_gdp_chart and
create_life_exp_chart selects at most 15 records, every selected record
matches Continent = continent and Year = year (under the pandas elementwise
comparison the code uses), and the selected records are ordered descending by
the respective ranking field — Population, GDP per Capita, Life Expectancy —
at column positions ip, ig, il (records with a missing ranking value ordered
last, as pandas na_position=last does). -/
theorem claim1_charts_top15 (df : DataFrame) (c y : Value) (ic iy ip ig il : Nat)
    (hic : df.colIdx "Continent" = Except.ok ic)
    (hiy : df.colIdx "Year" = Except.ok iy)
    (hip : df.colIdx "Population" = Except.ok ip)
    (hig : df.colIdx "GDP per Capita" = Except.ok ig)
    (hil : df.colIdx "Life Expectancy" = Except.ok il)
    (_hpair : ∃ r ∈ df.rows, pandasEq (rowCell r ic) c = true ∧
        pandasEq (rowCell r iy) y = true) :
    ((chartRows (create_population_chart df c y)).length ≤ 15 ∧
      (∀ r ∈ chartRows (create_population_chart df c y),
          pandasEq (rowCell r ic) c = true ∧ pandasEq (rowCell r iy) y = true) ∧
      (chartRows (create_population_chart df c y)).Pairwise
          (fun a b => rowCell b ip = Value.null ∨
            Value.leB (rowCell b ip) (rowCell a ip) = true)) ∧
    ((chartRows (create_gdp_chart df c y)).length ≤ 15 ∧
      (∀ r ∈ chartRows (create_gdp_chart df c y),
          pandasEq (rowCell r ic) c = true ∧ pandasEq (rowCell r iy) y = true) ∧
      (chartRows (create_gdp_chart df c y)).Pairwise
          (fun a b => rowCell b ig = Value.null ∨
            Value.leB (rowCell b ig) (rowCell a ig) = true)) ∧
    ((chartRows (create_life_exp_chart df c y)).length ≤ 15 ∧
      (∀ r ∈ chartRows (create_life_exp_chart df c y),
          pandasEq (rowCell r ic) c = true ∧ pandasEq (rowCell r iy) y = true) ∧
      (chartRows (create_life_exp_chart df c y)).Pairwise
          (fun a b => rowCell b il = Value.null ∨
            Value.leB (rowCell b il) (rowCell a il) = true)) :=
  ⟨barChartFor_props "Population" df c y ic iy ip hic hiy hip,
   barChartFor_props "GDP per Capita" df c y ic iy ig hic hiy hig,
   barChartFor_props "Life Expectancy" df c y ic iy il hic hiy hil⟩

/-- C1 witness: the theorem applied to the concrete frame sampleDF with the
pair (Asia, 1952), which is present in it. -/
theorem claim1_charts_top15_witness :
    (chartRows (create_population_chart sampleDF (Value.str "Asia") (Value.int 1952))).length ≤ 15 ∧
    (chartRows (create_gdp_chart sampleDF (Value.str "Asia") (Value.int 1952))).length ≤ 15 ∧
    (chartRows (create_life_exp_chart sampleDF (Value.str "Asia") (Value.int 1952))).length ≤ 15 ∧
    (chartRows (create_population_chart sampleDF (Value.str "Asia") (Value.int 1952))).Pairwise
        (fun a b => rowCell b 3 = Value.null ∨
          Value.leB (rowCell b 3) (rowCell a 3) = true) := by
  have h := claim1_charts_top15 sampleDF (Value.str "Asia") (Value.int 1952) 1 2 3 4 5
    (by decide) (by decide) (by decide) (by decide) (by decide) (by decide)
  exact ⟨h.1.1, h.2.1.1, h.2.2.1, h.1.2.2⟩

/-- specChoroplethFallback states claim C3 in the words of the spec: the
choropleth selection re-evaluates the location key per call — ISO-3 mode over
the ISO column when some record of the selected year carries a non-null ISO-3
code, and name-based matching over the Country column when none does. -/
def specChoroplethFallback (df : DataFrame) (varName : String) (y : Value) : Prop :=
  ∀ fig, create_choropleth_map df varName y = Except.ok fig →
    ∀ ii, fig.data.colIdx "ISO Alpha Country Code" = Except.ok ii →
      ((∃ r ∈ fig.data.rows, rowCell r ii ≠ Value.null) →
          fig.locationmode = "ISO-3" ∧ fig.locations = "ISO Alpha Country Code") ∧
      ((∀ r ∈ fig.data.rows, rowCell r ii = Value.null) →
          fig.locationmode = "country names" ∧ fig.locations = "Country")

/-- noIsoFig is the figure create_choropleth_map actually builds for noIsoDF
and year 1952. -/
def noIsoFig : Choropleth :=
  { data := { cols := noIsoDF.cols, rows := noIsoDF.rows },
    color := "Life Expectancy",
    locations := "ISO Alpha Country Code",
    locationmode := "ISO-3",
    hover := ["Country", "Life Expectancy"] }

/-- C3 counterexample: on noIsoDF no record of 1952 has a non-null ISO-3 code,
yet the code still uses ISO-3 mode over the ISO column — the name-based
fallback the claim describes does not exist in create_choropleth_map. -/
theorem claim3_counterexample :
    ¬ specChoroplethFallback noIsoDF "Life Expectancy" (Value.int 1952) := by
  intro h
  have h2 := h noIsoFig (by decide) 6 (by decide)
  have h3 := h2.2 (by decide)
  exact absurd h3.1 (by decide)

/-- C3 amended: create_choropleth_map always passes locationmode="ISO-3" and
locations="ISO Alpha Country Code" as fixed literals, for every dataset, year
and variable — there is no per-call re-evaluation and no fallback to matching
by country name. -/
theorem claim3_always_iso3 (df : DataFrame) (varName : String) (y : Value)
    (fig : Choropleth) (h : create_choropleth_map df varName y = Except.ok fig) :
    fig.locationmode = "ISO-3" ∧ fig.locations = "ISO Alpha Country Code" := by
  unfold create_choropleth_map at h
  cases hf : df.filterEq "Year" y with
  | error e => rw [hf] at h; exact Except.noConfusion h
  | ok f =>
    simp only [hf] at h
    cases hv : f.colIdx varName with
    | error e => rw [hv] at h; exact Except.noConfusion h
    | ok j1 =>
      simp only [hv] at h
      cases hi : f.colIdx "ISO Alpha Country Code" with
      | error e => rw [hi] at h; exact Except.noConfusion h
      | ok j2 =>
        simp only [hi] at h
        cases hc : f.colIdx "Country" with
        | error e => rw [hc] at h; exact Except.noConfusion h
        | ok j3 =>
          simp only [hc] at h
          injection h with h'
          rw [← h']
          exact ⟨rfl, rfl⟩

/-- C3 amended witness: the amended theorem applied to the concrete call on
noIsoDF. -/
theorem claim3_always_iso3_witness :
    create_choropleth_map noIsoDF "Life Expectancy" (Value.int 1952) = Except.ok noIsoFig ∧
    noIsoFig.locationmode = "ISO-3" ∧ noIsoFig.locations = "ISO Alpha Country Code" :=
  ⟨by decide,
   claim3_always_iso3 noIsoDF "Life Expectancy" (Value.int 1952) noIsoFig (by decide)⟩

/-- loadDataset_cols: the loader never changes the set of columns beyond the
renaming — the columns of a successfully loaded frame are exactly the renamed
source columns. -/
theorem loadDataset_cols {raw df : DataFrame} (h : loadDataset raw = Except.ok df) :
    df.cols = (renameCols raw).cols := by
  simp only [loadDataset] at h
  split at h
  · exact Except.noConfusion h
  · split at h
    · exact Except.noConfusion h
    · injection h with h'
      rw [← h']

/-- specLoaderFillsMissing states claim C4 in the words of the spec: loading
completes without failing and every expected canonical column is present in
the result (inserted as a null-valued column when the source lacks it). -/
def specLoaderFillsMissing (raw : DataFrame) : Prop :=
  ∃ df, loadDataset raw = Except.ok df ∧ ∀ name ∈ canonicalColumns, name ∈ df.cols

/-- C4 counterexample: for a source missing the pop column the loader
completes but the result has no Population column at all — nothing inserts a
null-valued substitute; and for a source missing the year column the loader
raises KeyError instead of completing. -/
theorem claim4_counterexample :
    (¬ specLoaderFillsMissing rawNoPop) ∧
    loadDataset rawNoYear = Except.error "KeyError: Year" := by
  constructor
  · rintro ⟨df, hdf, hall⟩
    have hcols := loadDataset_cols hdf
    have hmem : "Population" ∈ df.cols := hall "Population" (by decide)
    rw [hcols] at hmem
    exact absurd hmem (by decide)
  · decide

/-- C4 amended: a missing expected source column is silently ignored by the
rename — the loaded columns are exactly the renamed source columns, with no
null-valued substitute inserted — except that a source with no year column
makes the loader fail with KeyError (the Year astype access), so that case
does surface an error. -/
theorem claim4_loader_rename_only :
    (∀ raw df, loadDataset raw = Except.ok df →
        df.cols = raw.cols.map (fun c => ((renameMap.lookup c).getD c))) ∧
    (∀ raw, "Year" ∉ (renameCols raw).cols →
        loadDataset raw = Except.error "KeyError: Year") := by
  constructor
  · intro raw df h
    exact loadDataset_cols h
  · intro raw hnot
    have herr := colIdx_error_of_not_mem hnot
    simp only [loadDataset, herr]
    rfl

/-- C4 amended witness: the amended theorem applied to the concrete sources
rawNoPop (loader succeeds, columns are just the renamed source columns, so no
Population column appears) and rawNoYear (loader fails with KeyError). -/
theorem claim4_loader_rename_only_witness :
    (∃ df, loadDataset rawNoPop = Except.ok df ∧
        df.cols = rawNoPop.cols.map (fun c => ((renameMap.lookup c).getD c))) ∧
    loadDataset rawNoYear = Except.error "KeyError: Year" := by
  constructor
  · cases hE : loadDataset rawNoPop with
    | error e =>
      have hOk : isOkB (loadDataset rawNoPop) = true := by decide
      rw [hE] at hOk
      simp [isOkB] at hOk
    | ok df => exact ⟨df, rfl, claim4_loader_rename_only.1 rawNoPop df hE⟩
  · exact claim4_loader_rename_only.2 rawNoYear (by decide)

/-- specReplaceWithDefault states the substitution claim C5 describes: an
invalid or null selection value is replaced with the first available option
before the query runs. -/
def specReplaceWithDefault (options : List Value) (v : Value) : Value :=
  if v ∈ options then v else options.headD Value.null

/-- C5 counterexample: the population update callback invoked with a null
continent runs the query with the null value itself — producing an empty
chart — instead of the chart for the first available option Africa, so no
replacement with a default happens before the query. -/
theorem claim5_counterexample :
    continentsOf sampleDF = Except.ok [Value.str "Africa", Value.str "Asia"] ∧
    specReplaceWithDefault [Value.str "Africa", Value.str "Asia"] Value.null =
      Value.str "Africa" ∧
    update_population_chart sampleDF Value.null (Value.int 1952) ≠
      create_population_chart sampleDF
        (specReplaceWithDefault [Value.str "Africa", Value.str "Asia"] Value.null)
        (Value.int 1952) ∧
    chartRows (update_population_chart sampleDF Value.null (Value.int 1952)) = [] :=
  ⟨by decide, by decide, by decide, by decide⟩

/-- C5 amended: the chart-update callbacks pass the selection values through
to the regeneration functions unchanged — no default is substituted, and a
null continent reaches the query, where it matches nothing and yields an
empty result.  Null selections are instead prevented at the UI layer: every
dropdown is built with clearable=False (and an initial default value). -/
theorem claim5_passthrough :
    (∀ df (c y : Value),
        update_population_chart df c y = create_population_chart df c y ∧
        update_gdp_chart df c y = create_gdp_chart df c y ∧
        update_life_exp_chart df c y = create_life_exp_chart df c y) ∧
    (∀ i opts v, (mk_dropdown i opts v).clearable = false) ∧
    (∀ (df f1 : DataFrame),
        df.filterEq "Continent" Value.null = Except.ok f1 → f1.rows = []) := by
  refine ⟨fun df c y => ⟨rfl, rfl, rfl⟩, fun i opts v => rfl, ?_⟩
  intro df f1 h
  unfold DataFrame.filterEq at h
  cases hc : df.colIdx "Continent" with
  | error e => rw [hc] at h; exact Except.noConfusion h
  | ok i =>
    simp only [hc] at h
    injection h with h'
    rw [← h']
    simp [pandasEq_null_right]

/-- C5 amended witness: the amended theorem applied at concrete inputs. -/
theorem claim5_passthrough_witness :
    update_population_chart sampleDF (Value.str "Asia") (Value.int 1952) =
      create_population_chart sampleDF (Value.str "Asia") (Value.int 1952) ∧
    (mk_dropdown "cont_pop" [Value.str "Africa", Value.str "Asia"]
        (Value.str "Asia")).clearable = false ∧
    (∃ f1, sampleDF.filterEq "Continent" Value.null = Except.ok f1 ∧ f1.rows = []) := by
  refine ⟨(claim5_passthrough.1 sampleDF (Value.str "Asia") (Value.int 1952)).1,
    claim5_passthrough.2.1 "cont_pop" _ _, ?_⟩
  cases hE : sampleDF.filterEq "Continent" Value.null with
  | error e =>
    have hOk : isOkB (sampleDF.filterEq "Continent" Value.null) = true := by decide
    rw [hE] at hOk
    simp [isOkB] at hOk
  | ok f1 => exact ⟨f1, rfl, claim5_passthrough.2.2 sampleDF f1 hE⟩

/-- C6 counterexample: an exception raised during chart regeneration — here
the KeyError from the missing Population column, on a frame of the very shape
the loader produces from a source without a pop column — leaves the update
callback as that raw error: nothing catches it and no fallback table is
rendered, refuting that exceptions are never propagated out of the
callback. -/
theorem claim6_counterexample :
    ¬ (∀ df (c y : Value) e, update_population_chart df c y ≠ Except.error e) := by
  intro h
  exact h popFreeDF (Value.str "Asia") (Value.int 1952) "KeyError: Population" (by decide)

/-- C6 amended: the update callbacks contain no exception handling at all —
whatever error the regeneration function raises propagates out of the
callback unchanged (the session-level recovery the spec describes is not in
this code). -/
theorem claim6_update_propagates (df : DataFrame) (c y : Value) (v : String)
    (e : String) :
    (create_population_chart df c y = Except.error e →
        update_population_chart df c y = Except.error e) ∧
    (create_gdp_chart df c y = Except.error e →
        update_gdp_chart df c y = Except.error e) ∧
    (create_life_exp_chart df c y = Except.error e →
        update_life_exp_chart df c y = Except.error e) ∧
    (create_choropleth_map df v y = Except.error e →
        update_map df v y = Except.error e) :=
  ⟨fun h => h, fun h => h, fun h => h, fun h => h⟩

/-- C6 amended witness: the amended theorem applied to the concrete failing
regeneration on popFreeDF. -/
theorem claim6_update_propagates_witness :
    create_population_chart popFreeDF (Value.str "Asia") (Value.int 1952) =
      Except.error "KeyError: Population" ∧
    update_population_chart popFreeDF (Value.str "Asia") (Value.int 1952) =
      Except.error "KeyError: Population" :=
  ⟨by decide,
   (claim6_update_propagates popFreeDF (Value.str "Asia") (Value.int 1952) "Population"
      "KeyError: Population").1 (by decide)⟩

/-- C7: the regeneration functions are pure: they leave the module state (the
global gapminder_df) unchanged, and a second call on the state left by the
first call — with the same selection — produces an artifact with identical
underlying data. -/
theorem claim7_regeneration_pure (g : DataFrame) (c y : Value) (v : String) :
    ((create_population_chart_global g c y).2 = g ∧
      (create_population_chart_global ((create_population_chart_global g c y).2) c y).1 =
        (create_population_chart_global g c y).1) ∧
    ((create_gdp_chart_global g c y).2 = g ∧
      (create_gdp_chart_global ((create_gdp_chart_global g c y).2) c y).1 =
        (create_gdp_chart_global g c y).1) ∧
    ((create_life_exp_chart_global g c y).2 = g ∧
      (create_life_exp_chart_global ((create_life_exp_chart_global g c y).2) c y).1 =
        (create_life_exp_chart_global g c y).1) ∧
    ((create_choropleth_map_global g v y).2 = g ∧
      (create_choropleth_map_global ((create_choropleth_map_global g v y).2) v y).1 =
        (create_choropleth_map_global g v y).1) ∧
    ((create_table_global g).2 = g ∧
      (create_table_global ((create_table_global g).2)).1 = (create_table_global g).1) :=
  ⟨⟨rfl, rfl⟩, ⟨rfl, rfl⟩, ⟨rfl, rfl⟩, ⟨rfl, rfl⟩, ⟨rfl, rfl⟩⟩

/-- downloadFilteredBy_length: the filtered download serializes exactly as
many rows as the (continent, year) filter query returns — the sort permutes
rows without adding or dropping any. -/
theorem downloadFilteredBy_length (ycol : String) (df : DataFrame) (c y : Value)
    (n : Nat) (hn : 0 < n) (f1 q : DataFrame) (pl : DownloadPayload)
    (h1 : df.filterEq "Continent" c = Except.ok f1)
    (h2 : f1.filterEq "Year" y = Except.ok q)
    (hdl : downloadFilteredBy ycol df (some n) c y = some (Except.ok pl)) :
    pl.content.rows.length = q.rows.length := by
  unfold downloadFilteredBy at hdl
  have hcond : ¬((Option.some n).getD 0 = 0) := by
    simp only [Option.getD]
    omega
  rw [if_neg hcond] at hdl
  simp only [h1, h2] at hdl
  cases hs : q.sortValuesDesc ycol with
  | error e =>
    rw [hs] at hdl
    injection hdl with h'
    exact Except.noConfusion h'
  | ok s =>
    simp only [hs] at hdl
    injection hdl with h'
    injection h' with h''
    rw [← h'']
    unfold DataFrame.sortValuesDesc at hs
    cases hq : q.colIdx ycol with
    | error e => rw [hq] at hs; exact Except.noConfusion hs
    | ok i =>
      simp only [hq] at hs
      injection hs with h3
      rw [← h3]
      exact sortRowsDesc_length q.rows i

/-- C8: for each of the three filtered views and every (continent, year)
selection, the number of data rows in the exported CSV equals the number of
rows of the corresponding filtered query result (the filter of line 65,
before the top-15 truncation that only the chart applies). -/
theorem claim8_download_row_counts (df : DataFrame) (c y : Value) (n : Nat)
    (hn : 0 < n) (f1 q : DataFrame)
    (h1 : df.filterEq "Continent" c = Except.ok f1)
    (h2 : f1.filterEq "Year" y = Except.ok q) :
    (∀ pl, download_population df (some n) c y = some (Except.ok pl) →
        pl.content.rows.length = q.rows.length) ∧
    (∀ pl, download_gdp df (some n) c y = some (Except.ok pl) →
        pl.content.rows.length = q.rows.length) ∧
    (∀ pl, download_life df (some n) c y = some (Except.ok pl) →
        pl.content.rows.length = q.rows.length) :=
  ⟨fun pl hdl => downloadFilteredBy_length "Population" df c y n hn f1 q pl h1 h2 hdl,
   fun pl hdl => downloadFilteredBy_length "GDP per Capita" df c y n hn f1 q pl h1 h2 hdl,
   fun pl hdl => downloadFilteredBy_length "Life Expectancy" df c y n hn f1 q pl h1 h2 hdl⟩

/-- asiaDF is sampleDF filtered to Continent=Asia. -/
def asiaDF : DataFrame :=
  { cols := sampleDF.cols,
    rows :=
      [[.str "China", .str "Asia", .int 1952, .int 556263527, .rat 400, .rat 44, .str "CHN"],
       [.str "India", .str "Asia", .int 1952, .int 372000000, .rat 546, .rat 37, .str "IND"],
       [.str "Japan", .str "Asia", .int 1957, .int 91563009, .rat 4317, .rat 65, .str "JPN"]] }

/-- asia52DF is asiaDF filtered to Year=1952: the filtered query result. -/
def asia52DF : DataFrame :=
  { cols := sampleDF.cols,
    rows :=
      [[.str "China", .str "Asia", .int 1952, .int 556263527, .rat 400, .rat 44, .str "CHN"],
       [.str "India", .str "Asia", .int 1952, .int 372000000, .rat 546, .rat 37, .str "IND"]] }

/-- asiaPayload is the payload download_population produces for (Asia, 1952)
on sampleDF: the two matching rows, sorted descending by Population. -/
def asiaPayload : DownloadPayload :=
  { content :=
    { cols := sampleDF.cols,
      rows :=
        [[.str "China", .str "Asia", .int 1952, .int 556263527, .rat 400, .rat 44, .str "CHN"],
         [.str "India", .str "Asia", .int 1952, .int 372000000, .rat 546, .rat 37, .str "IND"]] } }

/-- C8 witness: the theorem applied to sampleDF with (Asia, 1952) after one
click. -/
theorem claim8_download_row_counts_witness :
    sampleDF.filterEq "Continent" (Value.str "Asia") = Except.ok asiaDF ∧
    asiaDF.filterEq "Year" (Value.int 1952) = Except.ok asia52DF ∧
    download_population sampleDF (some 1) (Value.str "Asia") (Value.int 1952) =
      some (Except.ok asiaPayload) ∧
    asiaPayload.content.rows.length = asia52DF.rows.length :=
  ⟨by decide, by decide, by decide,
   (claim8_download_row_counts sampleDF (Value.str "Asia") (Value.int 1952) 1
      (by decide) asiaDF asia52DF (by decide) (by decide)).1 asiaPayload (by decide)⟩

/-- specExportOnlyOnClick states the headline of claim C9: a CSV export
happens only on an explicit button press — after any other event the fired
download callback returns no data. -/
def specExportOnlyOnClick (df : DataFrame) : Prop :=
  ∀ s e, e ≠ PopTabEvent.click → popDownloadEmitted df (stepPop s e) = none

/-- C9 counterexample: the dropdown values are wired as Inputs of the download
callback (lines 240-241), so after the first click a continent change fires
the callback with n_clicks still positive, and a download is produced with no
button press. -/
theorem claim9_counterexample : ¬ specExportOnlyOnClick sampleDF := by
  intro h
  have h2 := h { n_clicks := some 1, continent := Value.str "Asia", year := Value.int 1952 }
    (PopTabEvent.setContinent (Value.str "Africa")) (by decide)
  exact absurd h2 (by decide)

/-- C9 amended: every download callback returns None while the button has
never been clicked (n_clicks None or 0); once n_clicks is positive the
callback output is the serialized current view, depending only on the current
selection and not on the click count (idempotent per click) — but because the
dropdowns are Inputs of the filtered download callbacks, a selection change
after the first click fires the callback again and produces a fresh download
without a new button press. -/
theorem claim9_download_behavior :
    (∀ df (c y : Value) nc, nc.getD 0 = 0 → download_population df nc c y = none) ∧
    (∀ df nc, nc.getD 0 = 0 → download_full_dataset df nc = none) ∧
    (∀ df (n m : Nat) (c y : Value), 0 < n → 0 < m →
        download_population df (some n) c y = download_population df (some m) c y) ∧
    (∀ df (n : Nat), 0 < n →
        download_full_dataset df (some n) = some (Except.ok { content := df })) ∧
    (∀ df s (v : Value),
        popDownloadEmitted df (stepPop s (PopTabEvent.setContinent v)) =
          download_population df s.n_clicks v s.year) ∧
    (∀ df s (v : Value),
        popDownloadEmitted df (stepPop s (PopTabEvent.setYear v)) =
          download_population df s.n_clicks s.continent v) := by
  refine ⟨?_, ?_, ?_, ?_, fun df s v => rfl, fun df s v => rfl⟩
  · intro df c y nc h
    unfold download_population downloadFilteredBy
    rw [if_pos h]
  · intro df nc h
    unfold download_full_dataset
    rw [if_pos h]
  · intro df n m c y hn hm
    have hcn : ¬((Option.some n).getD 0 = 0) := by simp only [Option.getD]; omega
    have hcm : ¬((Option.some m).getD 0 = 0) := by simp only [Option.getD]; omega
    unfold download_population downloadFilteredBy
    rw [if_neg hcn, if_neg hcm]
  · intro df n hn
    have hcn : ¬((Option.some n).getD 0 = 0) := by simp only [Option.getD]; omega
    unfold download_full_dataset
    rw [if_neg hcn]

/-- C9 amended witness: the amended theorem applied at concrete states. -/
theorem claim9_download_behavior_witness :
    download_population sampleDF none (Value.str "Asia") (Value.int 1952) = none ∧
    download_full_dataset sampleDF (some 0) = none ∧
    download_population sampleDF (some 1) (Value.str "Asia") (Value.int 1952) =
      download_population sampleDF (some 2) (Value.str "Asia") (Value.int 1952) ∧
    download_full_dataset sampleDF (some 1) = some (Except.ok { content := sampleDF }) ∧
    popDownloadEmitted sampleDF
        (stepPop { n_clicks := some 1, continent := Value.str "Asia", year := Value.int 1952 }
          (PopTabEvent.setContinent (Value.str "Africa"))) =
      download_population sampleDF (some 1) (Value.str "Africa") (Value.int 1952) :=
  ⟨claim9_download_behavior.1 sampleDF (Value.str "Asia") (Value.int 1952) none (by decide),
   claim9_download_behavior.2.1 sampleDF (some 0) (by decide),
   claim9_download_behavior.2.2.1 sampleDF 1 2 (Value.str "Asia") (Value.int 1952)
     (by decide) (by decide),
   claim9_download_behavior.2.2.2.1 sampleDF 1 (by decide),
   claim9_download_behavior.2.2.2.2.1 sampleDF
     { n_clicks := some 1, continent := Value.str "Asia", year := Value.int 1952 }
     (Value.str "Africa")⟩

/-- C10: for every year and selected variable, the map-tab export contains
exactly the rows whose Year equals the selected year — no row limit, no
ranking, original order — projected to exactly Country, Continent, Year, the
selected variable, ISO Alpha Country Code, in that order. -/
theorem claim10_map_download (df : DataFrame) (varName : String) (y : Value) (n : Nat)
    (iCo iC iY iv iI : Nat)
    (hCo : df.colIdx "Country" = Except.ok iCo)
    (hC : df.colIdx "Continent" = Except.ok iC)
    (hY : df.colIdx "Year" = Except.ok iY)
    (hv : df.colIdx varName = Except.ok iv)
    (hI : df.colIdx "ISO Alpha Country Code" = Except.ok iI)
    (hn : 0 < n) (pl : DownloadPayload)
    (hdl : download_map df (some n) varName y = some (Except.ok pl)) :
    pl.content.cols = ["Country", "Continent", "Year", varName, "ISO Alpha Country Code"] ∧
    pl.content.rows = (df.rows.filter (fun r => pandasEq (rowCell r iY) y)).map
      (fun r => [rowCell r iCo, rowCell r iC, rowCell r iY, rowCell r iv, rowCell r iI]) ∧
    pl.content.rows.length = (df.rows.filter (fun r => pandasEq (rowCell r iY) y)).length := by
  obtain ⟨cols, rows⟩ := df
  have hfCo := findIdx_of_colIdx hCo
  have hfC := findIdx_of_colIdx hC
  have hfY := findIdx_of_colIdx hY
  have hfv := findIdx_of_colIdx hv
  have hfI := findIdx_of_colIdx hI
  have hcond : ¬((Option.some n).getD 0 = 0) := by simp only [Option.getD]; omega
  unfold download_map at hdl
  rw [if_neg hcond] at hdl
  simp only [filterEq_mk hfY] at hdl
  simp only [DataFrame.project, mapExcept, DataFrame.colIdx, hfCo, hfC, hfY, hfv, hfI] at hdl
  injection hdl with h'
  injection h' with h''
  rw [← h'']
  refine ⟨rfl, rfl, ?_⟩
  exact List.length_map _ _

/-- mapPayload is the payload download_map produces on sampleDF for variable
Population and year 1952. -/
def mapPayload : DownloadPayload :=
  { content :=
    { cols := ["Country", "Continent", "Year", "Population", "ISO Alpha Country Code"],
      rows :=
        [[.str "China", .str "Asia", .int 1952, .int 556263527, .str "CHN"],
         [.str "India", .str "Asia", .int 1952, .int 372000000, .str "IND"],
         [.str "Egypt", .str "Africa", .int 1952, .int 22223309, .str "EGY"]] } }

/-- C10 witness: the theorem applied to sampleDF with variable Population and
year 1952 after one click. -/
theorem claim10_map_download_witness :
    download_map sampleDF (some 1) "Population" (Value.int 1952) =
      some (Except.ok mapPayload) ∧
    mapPayload.content.cols =
      ["Country", "Continent", "Year", "Population", "ISO Alpha Country Code"] ∧
    mapPayload.content.rows.length =
      (sampleDF.rows.filter (fun r => pandasEq (rowCell r 2) (Value.int 1952))).length := by
  have h := claim10_map_download sampleDF "Population" (Value.int 1952) 1 0 1 2 3 6
    (by decide) (by decide) (by decide) (by decide) (by decide) (by decide)
    mapPayload (by decide)
  exact ⟨by decide, h.1, h.2.2⟩

end Gapminder
